import Mathlib

set_option maxRecDepth 100000

/-!
# Verification of the agent-orchestration core

A shallow embedding, over `List Char`, of the protocol scanner, the agent
loop and the orchestrator of this repository (files `core/agent.py` and
`agents/orchestrator.py`), together with theorems settling the frozen
claims about them.

Conventions of the embedding:
* Python strings are `List Char` (`PyStr`); slicing, `strip`, `startswith`,
  `in` and `str.index` are modelled code-point for code-point.
* The regular expressions used by the source are modelled by explicit
  scanners with the exact leftmost / greedy / lazy semantics of the
  patterns involved.
* `json.loads` is modelled by `jsonLoads`, a fuel-based decoder of the
  JSON grammar accepted by the Python `json` module (including the
  `NaN` / `Infinity` extensions); numbers keep their lexeme.
* The model boundary (`llm_client.chat`), the tool boundary
  (`execute_tool`) and delegated agent runs are external collaborators
  and enter the model as oracle functions.
* Python exceptions that escape a function are modelled with `Except`,
  the error string naming the exception raised.
-/

/-- Python strings, as lists of code points. -/
abbrev PyStr := List Char

/-- Turns a Lean string literal into the `PyStr` it denotes. -/
def lit (s : String) : PyStr := s.data

/-- The opening curly bracket character. -/
def lbrace : Char := Char.ofNat 123

/-- The closing curly bracket character. -/
def rbrace : Char := Char.ofNat 125

/-- Whitespace as recognised by Python `str.strip` and by `\s` in `re`
patterns over `str` (ASCII whitespace, the C1 separators and the Unicode
space characters). -/
def pyIsSpace (c : Char) : Bool :=
  let n := c.toNat
  (9 ≤ n && n ≤ 13) || n == 32 || (28 ≤ n && n ≤ 31) || n == 133 || n == 160 ||
  n == 0x1680 || (0x2000 ≤ n && n ≤ 0x200A) || n == 0x2028 || n == 0x2029 ||
  n == 0x202F || n == 0x205F || n == 0x3000

/-- Python `str.strip()`. -/
def pyStrip (cs : PyStr) : PyStr :=
  ((cs.dropWhile pyIsSpace).reverse.dropWhile pyIsSpace).reverse

/-- Index of the first occurrence of `pat` (Python `str.index` /
`re` leftmost match of a literal), `none` when absent. -/
def firstIdx (pat : PyStr) : PyStr → Option Nat
  | [] => if pat = [] then some 0 else none
  | c :: rest =>
    if pat.isPrefixOf (c :: rest) then some 0
    else (firstIdx pat rest).map (· + 1)

/-- Python `pat in hay`. -/
def containsSub (hay pat : PyStr) : Bool := (firstIdx pat hay).isSome

/-- Python `str.startswith`. -/
def pyStartsWith (cs pre : PyStr) : Bool := pre.isPrefixOf cs

/-- Index of the first occurrence of a single character. -/
def charIdxFirst (c : Char) : PyStr → Option Nat
  | [] => none
  | x :: rest => if x = c then some 0 else (charIdxFirst c rest).map (· + 1)

/-- Index of the last occurrence of a single character. -/
def charIdxLast (c : Char) (cs : PyStr) : Option Nat :=
  (charIdxFirst c cs.reverse).map (fun k => cs.length - 1 - k)

/-- The Python regex search for a greedy brace pattern with `DOTALL`
(`re.search` of an open bracket, then any characters, then a close
bracket): the leftmost-longest match runs from the first opening brace to
the last closing brace of the whole text, provided the latter comes
after the former. -/
def greedyBraceMatch (cs : PyStr) : Option PyStr :=
  match charIdxFirst lbrace cs, charIdxLast rbrace cs with
  | some i, some j => if i < j then some ((cs.drop i).take (j - i + 1)) else none
  | _, _ => none

/-- Decimal digit for Lean `Nat` rendering of round and cycle numbers. -/
def natToStr (n : Nat) : PyStr := (Nat.repr n).data

/-- Python `"\n".join`. -/
def joinNl : List PyStr → PyStr
  | [] => []
  | [x] => x
  | x :: y :: rest => x ++ lit "\n" ++ joinNl (y :: rest)

/-- Python `"\n\n".join`. -/
def joinBlank : List PyStr → PyStr
  | [] => []
  | [x] => x
  | x :: y :: rest => x ++ lit "\n\n" ++ joinBlank (y :: rest)

/-- Python `str.capitalize` (ASCII case mapping; characters outside
ASCII are kept unchanged, which covers every role string the source
uses). -/
def asciiUpper (c : Char) : Char :=
  if 97 ≤ c.toNat && c.toNat ≤ 122 then Char.ofNat (c.toNat - 32) else c

/-- Lower-casing half of `str.capitalize` and of case-insensitive
matching. -/
def asciiLower (c : Char) : Char :=
  if 65 ≤ c.toNat && c.toNat ≤ 90 then Char.ofNat (c.toNat + 32) else c

/-- Python `str.capitalize()` over ASCII. -/
def pyCapitalize : PyStr → PyStr
  | [] => []
  | c :: rest => asciiUpper c :: rest.map asciiLower

/-- JSON values as produced by `json.loads`; numbers keep their source
lexeme (the claims under verification never inspect a numeric value,
only re-render integers, for which the lexeme is the Python rendering). -/
inductive Json where
  | null : Json
  | bool (b : Bool) : Json
  | num (lexeme : PyStr) : Json
  | str (s : PyStr) : Json
  | arr (items : List Json) : Json
  | obj (members : List (PyStr × Json)) : Json

/-- Lookup in a decoded object; on duplicate keys `json.loads` keeps the
last binding, as the fold does. -/
def lookupLast (k : PyStr) (m : List (PyStr × Json)) : Option Json :=
  m.foldl (fun acc p => if p.1 = k then some p.2 else acc) none

/-- Python `dict.get(k)` on a decoded object (`none` on any other value,
where Python would raise instead; callers that can receive a non-object
model that error separately). -/
def Json.getKey : Json → PyStr → Option Json
  | Json.obj m, k => lookupLast k m
  | _, _ => none

/-- Python `dict.get(k, d)`. -/
def Json.getD (j : Json) (k : PyStr) (d : Json) : Json := (j.getKey k).getD d

/-- Whitespace skipped between JSON tokens (the `json` module skips
exactly space, tab, newline and carriage return). -/
def jsonWs (c : Char) : Bool := c == ' ' || c == '\t' || c == '\n' || c == '\r'

/-- Skips inter-token JSON whitespace. -/
def skipJsonWs (cs : PyStr) : PyStr := cs.dropWhile jsonWs

/-- ASCII decimal digit test. -/
def isDigit (c : Char) : Bool := 48 ≤ c.toNat && c.toNat ≤ 57

/-- Splits a maximal run of decimal digits off the front. -/
def scanDigits : PyStr → PyStr × PyStr
  | [] => ([], [])
  | c :: rest =>
    if isDigit c then
      let p := scanDigits rest
      (c :: p.1, p.2)
    else ([], c :: rest)

/-- Value of a hexadecimal digit. -/
def hexVal (c : Char) : Option Nat :=
  if 48 ≤ c.toNat && c.toNat ≤ 57 then some (c.toNat - 48)
  else if 97 ≤ c.toNat && c.toNat ≤ 102 then some (c.toNat - 87)
  else if 65 ≤ c.toNat && c.toNat ≤ 70 then some (c.toNat - 55)
  else none

/-- Reads exactly four hexadecimal digits. -/
def hex4 : PyStr → Option (Nat × PyStr)
  | a :: b :: c :: d :: rest =>
    match hexVal a, hexVal b, hexVal c, hexVal d with
    | some x, some y, some z, some w => some (((x * 16 + y) * 16 + z) * 16 + w, rest)
    | _, _, _, _ => none
  | _ => none

/-- Body of a JSON string after the opening quote, with the escape
sequences `json.loads` accepts; raw control characters are rejected as in
strict mode. Surrogate pairs written as two `\u` escapes are combined;
a lone surrogate (which Python would keep in the `str`) falls outside
the `Char` type and decodes to the replacement value of `Char.ofNat`.
Fuel is the length of the remaining input. -/
def parseJStrGo : Nat → PyStr → Option (PyStr × PyStr)
  | 0, _ => none
  | _ + 1, [] => none
  | fuel + 1, c :: rest =>
    if c = '"' then some ([], rest)
    else if c = '\\' then
      match rest with
      | [] => none
      | e :: rest2 =>
        if e = '"' then (parseJStrGo fuel rest2).map (fun p => ('"' :: p.1, p.2))
        else if e = '\\' then (parseJStrGo fuel rest2).map (fun p => ('\\' :: p.1, p.2))
        else if e = '/' then (parseJStrGo fuel rest2).map (fun p => ('/' :: p.1, p.2))
        else if e = 'b' then (parseJStrGo fuel rest2).map (fun p => (Char.ofNat 8 :: p.1, p.2))
        else if e = 'f' then (parseJStrGo fuel rest2).map (fun p => (Char.ofNat 12 :: p.1, p.2))
        else if e = 'n' then (parseJStrGo fuel rest2).map (fun p => ('\n' :: p.1, p.2))
        else if e = 'r' then (parseJStrGo fuel rest2).map (fun p => (Char.ofNat 13 :: p.1, p.2))
        else if e = 't' then (parseJStrGo fuel rest2).map (fun p => ('\t' :: p.1, p.2))
        else if e = 'u' then
          match hex4 rest2 with
          | none => none
          | some (n, rest3) =>
            if 0xD800 ≤ n && n ≤ 0xDBFF then
              match rest3 with
              | '\\' :: 'u' :: rest4 =>
                match hex4 rest4 with
                | some (m, rest5) =>
                  if 0xDC00 ≤ m && m ≤ 0xDFFF then
                    (parseJStrGo fuel rest5).map
                      (fun p => (Char.ofNat (0x10000 + (n - 0xD800) * 0x400 + (m - 0xDC00)) :: p.1, p.2))
                  else (parseJStrGo fuel rest3).map (fun p => (Char.ofNat n :: p.1, p.2))
                | none => (parseJStrGo fuel rest3).map (fun p => (Char.ofNat n :: p.1, p.2))
              | _ => (parseJStrGo fuel rest3).map (fun p => (Char.ofNat n :: p.1, p.2))
            else (parseJStrGo fuel rest3).map (fun p => (Char.ofNat n :: p.1, p.2))
        else none
    else if c.toNat < 32 then none
    else (parseJStrGo fuel rest).map (fun p => (c :: p.1, p.2))

/-- JSON string body starting after the opening quote. -/
def parseJStr (cs : PyStr) : Option (PyStr × PyStr) := parseJStrGo (cs.length + 1) cs

/-- JSON number lexeme, as matched by the number pattern of the `json`
module: optional minus, integer part without leading zeros, optional
fraction, optional exponent. Returns the lexeme and the rest. -/
def parseNumTail (acc : PyStr) (cs : PyStr) : PyStr × PyStr :=
  let p1 :=
    match cs with
    | '.' :: r =>
      match scanDigits r with
      | ([], _) => (acc, cs)
      | (d, r2) => (acc ++ '.' :: d, r2)
    | _ => (acc, cs)
  match p1.2 with
  | e :: r =>
    if e = 'e' || e = 'E' then
      match r with
      | s :: r2 =>
        if s = '+' || s = '-' then
          match scanDigits r2 with
          | ([], _) => p1
          | (d, r3) => (p1.1 ++ e :: s :: d, r3)
        else
          match scanDigits r with
          | ([], _) => p1
          | (d, r3) => (p1.1 ++ e :: d, r3)
      | [] => p1
    else p1
  | [] => p1

/-- Leading JSON number of the input, or `none`. -/
def parseNumber (cs : PyStr) : Option (PyStr × PyStr) :=
  let sp : PyStr × PyStr :=
    match cs with
    | '-' :: r => (['-'], r)
    | _ => ([], cs)
  match sp.2 with
  | [] => none
  | c :: rest =>
    if c = '0' then
      let p := parseNumTail (sp.1 ++ [c]) rest
      some p
    else if isDigit c then
      let d := scanDigits rest
      some (parseNumTail (sp.1 ++ c :: d.1) d.2)
    else none

mutual

/-- One JSON value at the head of the input (whitespace already
skipped), as decoded by `json.loads`. Fuel decreases on every mutual
call; the top-level wrapper supplies enough for any input. -/
def parseValue : Nat → PyStr → Option (Json × PyStr)
  | 0, _ => none
  | fuel + 1, cs =>
    match cs with
    | [] => none
    | c :: rest =>
      if c = '"' then
        match parseJStr rest with
        | some (s, r) => some (Json.str s, r)
        | none => none
      else if c = lbrace then parseObjBody fuel (skipJsonWs rest)
      else if c = '[' then parseArrBody fuel (skipJsonWs rest)
      else if (lit "true").isPrefixOf cs then some (Json.bool true, cs.drop 4)
      else if (lit "false").isPrefixOf cs then some (Json.bool false, cs.drop 5)
      else if (lit "null").isPrefixOf cs then some (Json.null, cs.drop 4)
      else if (lit "NaN").isPrefixOf cs then some (Json.num (lit "NaN"), cs.drop 3)
      else if (lit "Infinity").isPrefixOf cs then some (Json.num (lit "Infinity"), cs.drop 8)
      else if (lit "-Infinity").isPrefixOf cs then some (Json.num (lit "-Infinity"), cs.drop 9)
      else
        match parseNumber cs with
        | some (lex, r) => some (Json.num lex, r)
        | none => none

/-- Object body after the opening brace (whitespace skipped). -/
def parseObjBody : Nat → PyStr → Option (Json × PyStr)
  | 0, _ => none
  | fuel + 1, cs =>
    match cs with
    | [] => none
    | c :: rest =>
      if c = rbrace then some (Json.obj [], rest)
      else parseObjItems fuel (c :: rest) []

/-- Members of an object, starting at a key (whitespace skipped). -/
def parseObjItems : Nat → PyStr → List (PyStr × Json) → Option (Json × PyStr)
  | 0, _, _ => none
  | fuel + 1, cs, acc =>
    match cs with
    | [] => none
    | c :: rest =>
      if c = '"' then
        match parseJStr rest with
        | some (k, r1) =>
          match skipJsonWs r1 with
          | ':' :: r2 =>
            match parseValue fuel (skipJsonWs r2) with
            | some (v, r3) =>
              match skipJsonWs r3 with
              | ',' :: r4 => parseObjItems fuel (skipJsonWs r4) (acc ++ [(k, v)])
              | d :: r4 => if d = rbrace then some (Json.obj (acc ++ [(k, v)]), r4) else none
              | [] => none
            | none => none
          | _ => none
        | none => none
      else none

/-- Array body after the opening bracket (whitespace skipped). -/
def parseArrBody : Nat → PyStr → Option (Json × PyStr)
  | 0, _ => none
  | fuel + 1, cs =>
    match cs with
    | [] => none
    | c :: rest =>
      if c = ']' then some (Json.arr [], rest)
      else parseArrItems fuel (c :: rest) []

/-- Elements of an array, starting at a value (whitespace skipped). -/
def parseArrItems : Nat → PyStr → List Json → Option (Json × PyStr)
  | 0, _, _ => none
  | fuel + 1, cs, acc =>
    match parseValue fuel cs with
    | some (v, r) =>
      match skipJsonWs r with
      | ',' :: r2 => parseArrItems fuel (skipJsonWs r2) (acc ++ [v])
      | d :: r2 => if d = ']' then some (Json.arr (acc ++ [v]), r2) else none
      | [] => none
    | none => none

end

/-- Python `json.loads`: one JSON document with optional surrounding
whitespace; anything left over is an error (`none`). -/
def jsonLoads (cs : PyStr) : Option Json :=
  match parseValue (4 * cs.length + 16) (skipJsonWs cs) with
  | some (v, rest) => if skipJsonWs rest = [] then some v else none
  | none => none

/-! ## Protocol scanner (`core/agent.py`) -/

/-- The call marker `TOOL_CALL_TAG` of `core/agent.py`. -/
def TOOL_CALL_TAG : PyStr := lit "[TOOL_CALL]"

/-- The transport-error marker produced by the model boundary. -/
def ERROR_TAG : PyStr := lit "[ERROR]"

/-- The function `parse_tool_call` of `core/agent.py`: locate the call
marker, take the text after it (stripped), search it with the greedy
brace regex under `DOTALL`, decode the match with `json.loads`, and
read the `name` and `arguments` fields; every failure yields no call.
The pair mirrors the Python result: first component `none` exactly when
Python returns `None` for the tool name. -/
def parse_tool_call (text : PyStr) : Option Json × Option Json :=
  match firstIdx TOOL_CALL_TAG text with
  | none => (none, none)
  | some i =>
    let remaining := pyStrip (text.drop (i + TOOL_CALL_TAG.length))
    match greedyBraceMatch remaining with
    | none => (none, none)
    | some m =>
      match jsonLoads m with
      | none => (none, none)
      | some parsed => (parsed.getKey (lit "name"), some (parsed.getD (lit "arguments") (Json.obj [])))

/-- The function `extract_thinking` of `core/agent.py`: remove the first
(leftmost, minimal) well-known bracketed reasoning block, returning its
stripped content and the stripped remainder; without a complete block the
text is returned unchanged. -/
def extract_thinking (text : PyStr) : Option PyStr × PyStr :=
  match firstIdx (lit "<think>") text with
  | none => (none, text)
  | some i =>
    let afterOpen := text.drop (i + 7)
    match firstIdx (lit "</think>") afterOpen with
    | none => (none, text)
    | some k =>
      (some (pyStrip (afterOpen.take k)),
       pyStrip (text.take i ++ afterOpen.drop (k + 8)))

/-- Earliest of two optional stop positions, with a default when both
are absent. -/
def minStop (a b : Option Nat) (dflt : Nat) : Nat :=
  match a, b with
  | some x, some y => min x y
  | some x, none => x
  | none, some y => y
  | none, none => dflt

/-- The function `parse_react_thought` of `core/agent.py`: content after
the first `Thought:` marker (maximal whitespace skipped by the greedy
whitespace class, as the regex does) up to the next `Act:` or `Answer:`
line or the end of text, stripped; the original text is returned as the
second component, as in the source. -/
def parse_react_thought (text : PyStr) : Option PyStr × PyStr :=
  match firstIdx (lit "Thought:") text with
  | none => (none, text)
  | some i =>
    let rest := (text.drop (i + 8)).dropWhile pyIsSpace
    let stop := minStop (firstIdx (lit "\nAct:") rest) (firstIdx (lit "\nAnswer:") rest) rest.length
    (some (pyStrip (rest.take stop)), text)

/-- The function `parse_react_answer` of `core/agent.py`: everything
after the first `Answer:` marker, stripped. -/
def parse_react_answer (text : PyStr) : Option PyStr :=
  (firstIdx (lit "Answer:") text).map (fun i => pyStrip (text.drop (i + 7)))

/-- Modelled from the spec: `extractFirstBalancedObject` scans left to
right tracking the nesting depth of the structural delimiter pair,
ignoring delimiters inside quoted strings and honouring escape
characters, and returns the first complete top-level structure. The
corresponding repository function `_extract_first_json` is imported by
`tests/test_react.py` but absent from `core/agent.py`. The accumulator
holds the structure read so far; fuel is structural on the input. -/
def scanBalanced : PyStr → Nat → Bool → Bool → PyStr → Option PyStr
  | [], _, _, _, _ => none
  | c :: rest, depth, inStr, esc, acc =>
    if inStr then
      if esc then scanBalanced rest depth true false (acc ++ [c])
      else if c = '\\' then scanBalanced rest depth true true (acc ++ [c])
      else if c = '"' then scanBalanced rest depth false false (acc ++ [c])
      else scanBalanced rest depth true false (acc ++ [c])
    else if c = '"' then scanBalanced rest depth true false (acc ++ [c])
    else if c = lbrace then scanBalanced rest (depth + 1) false false (acc ++ [c])
    else if c = rbrace then
      if depth = 1 then some (acc ++ [c])
      else scanBalanced rest (depth - 1) false false (acc ++ [c])
    else scanBalanced rest depth false false (acc ++ [c])

/-- Modelled from the spec: the first complete top-level balanced object
of the text, everything before and after it discarded. -/
def extract_first_balanced_object (cs : PyStr) : Option PyStr :=
  match charIdxFirst lbrace cs with
  | none => none
  | some i => scanBalanced (cs.drop (i + 1)) 1 false false [lbrace]

/-- Modelled from the spec: `parseToolCall` as §4.1 describes it —
identical to `parse_tool_call` except that the text after the call
marker is scanned with `extractFirstBalancedObject` instead of the
greedy brace regex. -/
def parse_tool_call_fixed (text : PyStr) : Option Json × Option Json :=
  match firstIdx TOOL_CALL_TAG text with
  | none => (none, none)
  | some i =>
    let remaining := pyStrip (text.drop (i + TOOL_CALL_TAG.length))
    match extract_first_balanced_object remaining with
    | none => (none, none)
    | some m =>
      match jsonLoads m with
      | none => (none, none)
      | some parsed => (parsed.getKey (lit "name"), some (parsed.getD (lit "arguments") (Json.obj [])))

/-! ## Orchestrator parsing helpers (`agents/orchestrator.py`) -/

/-- One pass of the substitution regex that deletes every reasoning
block: repeatedly remove the leftmost minimal block and continue after
it, leaving the text unchanged where no complete block remains. Fuel is
the input length, which bounds the number of removals. -/
def stripThinkGo : Nat → PyStr → PyStr
  | 0, cs => cs
  | fuel + 1, cs =>
    match firstIdx (lit "<think>") cs with
    | none => cs
    | some i =>
      let afterOpen := cs.drop (i + 7)
      match firstIdx (lit "</think>") afterOpen with
      | none => cs
      | some k => cs.take i ++ stripThinkGo fuel (afterOpen.drop (k + 8))

/-- Removal of all reasoning blocks, as the substitution in
`parse_plan`, `parse_verdict` and `_merge_results` performs it. -/
def stripThinkAll (cs : PyStr) : PyStr := stripThinkGo cs.length cs

/-- The function `parse_plan` of `agents/orchestrator.py`: strip
reasoning blocks and surrounding whitespace, search with the greedy
brace regex, decode, and require a non-empty list under the
`subtasks` key; every failure yields no plan. -/
def parse_plan (rawText : PyStr) : Option (List Json) :=
  let clean := pyStrip (stripThinkAll rawText)
  match greedyBraceMatch clean with
  | none => none
  | some m =>
    match jsonLoads m with
    | none => none
    | some parsed =>
      match parsed.getKey (lit "subtasks") with
      | some (Json.arr l) => if 0 < l.length then some l else none
      | _ => none

/-- A reviewer verdict: `PASS`, or `FEEDBACK` with feedback text. -/
inductive Verdict where
  | pass : Verdict
  | feedback (fb : PyStr) : Verdict
deriving DecidableEq

/-- Tag check used to state properties of verdicts. -/
def Verdict.isFeedback : Verdict → Bool
  | Verdict.pass => false
  | Verdict.feedback _ => true

/-- Case-insensitive literal prefix match (ASCII case folding, which
covers the verdict markers); returns the rest on success. -/
def ciPrefix : PyStr → PyStr → Option PyStr
  | [], rest => some rest
  | _ :: _, [] => none
  | p :: ps, c :: rest => if asciiLower c = asciiLower p then ciPrefix ps rest else none

/-- Match of `VERDICT:`, greedy whitespace, `PASS` at the head of the
text (the anchored step of the case-insensitive search). -/
def verdictPassAt (cs : PyStr) : Bool :=
  match ciPrefix (lit "VERDICT:") cs with
  | some rest => (ciPrefix (lit "PASS") (rest.dropWhile pyIsSpace)).isSome
  | none => false

/-- Search for the PASS marker anywhere in the text. -/
def verdictPassFound : PyStr → Bool
  | [] => false
  | c :: rest => verdictPassAt (c :: rest) || verdictPassFound rest

/-- Match of `VERDICT:`, whitespace, `FEEDBACK` at the head of the text,
returning the text after the marker. -/
def verdictFeedbackAt (cs : PyStr) : Option PyStr :=
  match ciPrefix (lit "VERDICT:") cs with
  | some rest => ciPrefix (lit "FEEDBACK") (rest.dropWhile pyIsSpace)
  | none => none

/-- Leftmost match of the FEEDBACK marker, returning the capture of the
trailing group under `DOTALL` before stripping (the greedy whitespace
between marker and capture is immaterial after the strip that follows). -/
def verdictFeedbackFind : PyStr → Option PyStr
  | [] => none
  | c :: rest =>
    match verdictFeedbackAt (c :: rest) with
    | some r => some r
    | none => verdictFeedbackFind rest

/-- The placeholder substituted for empty feedback text. -/
def NO_DETAILS : PyStr := lit "Reviewer flagged issues but gave no details."

/-- The function `parse_verdict` of `agents/orchestrator.py`: strip
reasoning blocks and whitespace, search case-insensitively for the PASS
marker first, else for the FEEDBACK marker with its trailing text
(placeholder when that text strips to nothing), defaulting to PASS when
neither marker is present. -/
def parse_verdict (reviewText : PyStr) : Verdict :=
  let clean := pyStrip (stripThinkAll reviewText)
  if verdictPassFound clean then Verdict.pass
  else
    match verdictFeedbackFind clean with
    | some r =>
      let fb := pyStrip r
      Verdict.feedback (if fb = [] then NO_DETAILS else fb)
    | none => Verdict.pass

/-! ## Agent loop (`core/agent.py`, class `Agent`) -/

/-- Conversation roles. -/
inductive Role where
  | system : Role
  | user : Role
  | assistant : Role
deriving DecidableEq

/-- One conversation message. -/
structure Message where
  role : Role
  content : PyStr
deriving DecidableEq

/-- One record of the agent trace, as the dictionaries appended by
`Agent.run`: a `final_answer` step or a `tool_call` step. -/
inductive TraceStep where
  | finalAnswer (round : Nat) (thought : Option PyStr) (answer : PyStr) (raw : PyStr)
  | toolCall (round : Nat) (thought : Option PyStr) (tool : Json) (arguments : Json)
      (result : PyStr) (raw : PyStr)

instance : Inhabited TraceStep := ⟨TraceStep.finalAnswer 0 none [] []⟩

/-- Round number of a trace step. -/
def TraceStep.round : TraceStep → Nat
  | TraceStep.finalAnswer r _ _ _ => r
  | TraceStep.toolCall r _ _ _ _ _ => r

/-- Kind check for trace steps. -/
def TraceStep.isToolCall : TraceStep → Bool
  | TraceStep.finalAnswer _ _ _ _ => false
  | TraceStep.toolCall _ _ _ _ _ _ => true

/-- The recorded answer of a `final_answer` step. -/
def TraceStep.answerOf : TraceStep → Option PyStr
  | TraceStep.finalAnswer _ _ a _ => some a
  | TraceStep.toolCall _ _ _ _ _ _ => none

/-- Python truthiness of the optional answer (an empty string is falsy,
so `if answer` rejects both absence and emptiness). -/
def ansTruthy : Option PyStr → Bool
  | some a => !a.isEmpty
  | none => false

/-- The decision one loop round takes on a model response, exactly as
the body of `Agent.run` computes it: strip the reasoning block, parse
the thought from the visible text, take the final answer when a truthy
`Answer:` section exists and the call marker is absent from the visible
text, else try the tool-call parse on the RAW response text, treating
the whole visible text as the answer when no call parses. -/
inductive RoundAction where
  | finalAnswer (thought : Option PyStr) (answer : PyStr)
  | wholeText (thought : Option PyStr) (visible : PyStr)
  | toolCall (thought : Option PyStr) (name : Json) (args : Json)

/-- Decision function of one round of `Agent.run` on the response text. -/
def roundAction (raw : PyStr) : RoundAction :=
  let visible := (extract_thinking raw).2
  let thought := (parse_react_thought visible).1
  let ans := parse_react_answer visible
  if ansTruthy ans && !(containsSub visible TOOL_CALL_TAG) then
    RoundAction.finalAnswer thought (ans.getD [])
  else
    match parse_tool_call raw with
    | (none, _) => RoundAction.wholeText thought visible
    | (some nm, args) => RoundAction.toolCall thought nm (args.getD (Json.obj []))

/-- The control-relevant part of a round decision (the branch taken and
what it acts on), without the logging payloads. -/
inductive RoundControl where
  | answer (a : PyStr) : RoundControl
  | whole (v : PyStr) : RoundControl
  | tool (name : Json) (args : Json) : RoundControl

/-- Projection of a round decision to its control content. -/
def RoundAction.control : RoundAction → RoundControl
  | RoundAction.finalAnswer _ a => RoundControl.answer a
  | RoundAction.wholeText _ v => RoundControl.whole v
  | RoundAction.toolCall _ nm args => RoundControl.tool nm args

/-- Control branch taken by one round on a raw model response. -/
def roundControl (raw : PyStr) : RoundControl := (roundAction raw).control

/-- Discriminant of a control branch, for stating branch inequality. -/
def RoundControl.tag : RoundControl → Nat
  | RoundControl.answer _ => 0
  | RoundControl.whole _ => 1
  | RoundControl.tool _ _ => 2

/-- External collaborators of the agent loop: the model boundary and
the tool boundary (spec section 6); both return text and never raise. -/
structure AgentEnv where
  chat : List Message → PyStr
  execTool : Json → Json → PyStr

/-- The corrective user message of `Agent._force_final_answer`. -/
def forcedMessage : PyStr :=
  lit "You have used all available tool rounds. Give your best final answer now based on what you have so far.\n\nThought: <summarize what you know>\nAnswer: <your final answer>"

/-- The method `Agent._force_final_answer`: append the corrective user
message, issue one more model call, and return its parsed answer when
truthy, else the raw response. No trace step is appended. -/
def forceFinal (env : AgentEnv) (hist : List Message) : PyStr :=
  let rt := env.chat (hist ++ [⟨Role.user, forcedMessage⟩])
  match parse_react_answer rt with
  | some a => if a.isEmpty then rt else a
  | none => rt

/-- The round loop of `Agent.run`. Fuel counts the remaining rounds of
`range(1, MAX_TOOL_ROUNDS + 1)`; `round` is the current round number.
A transport-error response returns a tagged error string immediately,
appending no trace step; exhausted fuel forces a final answer, likewise
appending no step. -/
def agentRunGo (env : AgentEnv) : Nat → Nat → List Message → List TraceStep →
    PyStr × List TraceStep
  | 0, _, hist, tr => (forceFinal env hist, tr)
  | fuel + 1, round, hist, tr =>
    let raw := env.chat hist
    if pyStartsWith raw ERROR_TAG then (lit "Agent error: " ++ raw, tr)
    else
      match roundAction raw with
      | RoundAction.finalAnswer th a =>
        (a, tr ++ [TraceStep.finalAnswer round th a raw])
      | RoundAction.wholeText th v =>
        (v, tr ++ [TraceStep.finalAnswer round th v raw])
      | RoundAction.toolCall th nm args =>
        let res := env.execTool nm args
        agentRunGo env fuel (round + 1)
          (hist ++ [⟨Role.assistant, raw⟩, ⟨Role.user, lit "Observe: " ++ res⟩])
          (tr ++ [TraceStep.toolCall round th nm args res raw])

/-- The method `Agent.run`: fresh history of system prompt and user
task, fresh trace, then up to `maxRounds` rounds. Returns the answer
text and the final trace. -/
def Agent.run (env : AgentEnv) (maxRounds : Nat) (systemPrompt userInput : PyStr) :
    PyStr × List TraceStep :=
  agentRunGo env maxRounds 1
    [⟨Role.system, systemPrompt⟩, ⟨Role.user, userInput⟩] []

/-! ## Orchestrator (`agents/orchestrator.py`, class `Orchestrator`) -/

/-- The closed set of specialist kinds `_create_agent` can construct. -/
inductive AgentKind where
  | researcher : AgentKind
  | coder : AgentKind
  | reviewer : AgentKind
  | general : AgentKind
deriving DecidableEq

/-- Role dispatch of `_create_agent`: the three recognised role strings,
any other string falling back to the general agent. -/
def createAgentKind (agentType : PyStr) : AgentKind :=
  if agentType = lit "researcher" then AgentKind.researcher
  else if agentType = lit "coder" then AgentKind.coder
  else if agentType = lit "reviewer" then AgentKind.reviewer
  else AgentKind.general

/-- Python `str()` as the f-strings of the orchestrator apply it to
decoded JSON values. Strings pass through, integer numbers render as
their lexeme, and the constants render as Python spells them. Container
and exotic float renderings are abbreviated: no claim under
verification exercises them. -/
def pyStrOfJson : Json → PyStr
  | Json.str s => s
  | Json.num l => l
  | Json.bool true => lit "True"
  | Json.bool false => lit "False"
  | Json.null => lit "None"
  | Json.arr _ => lit "<container>"
  | Json.obj _ => lit "<container>"

/-- One delegated subtask result, with the fields of `result_entry`
that later phases read (all of them interpolated into f-strings, hence
stored stringified). `errored` models the `type == "error"` annotation. -/
structure SubtaskResult where
  id : PyStr
  agent : PyStr
  task : PyStr
  result : PyStr
  errored : Bool

instance : Inhabited SubtaskResult := ⟨⟨[], [], [], [], false⟩⟩

/-- External collaborators and configuration of one orchestrator run:
the planning response, the delegated agent runs (kind, name, input),
the merge response, and the module-level review toggles. -/
structure Orchestrator where
  chatPlan : PyStr
  agentRun : AgentKind → PyStr → PyStr → PyStr
  chatMerge : PyStr → PyStr
  reviewEnabled : Bool
  maxReviewCycles : Nat

/-- The method `Orchestrator._build_context`: for each prior result a
labeled header line, the first 500 characters of its result, and a
blank line, joined with newlines. -/
def contextLines : List SubtaskResult → List PyStr
  | [] => []
  | r :: rest =>
    (lit "[Subtask " ++ r.id ++ lit " — " ++ r.agent ++ lit "]") ::
    r.result.take 500 :: [] :: contextLines rest

/-- The context block `_build_context` returns. -/
def build_context (results : List SubtaskResult) : PyStr :=
  joinNl (contextLines results)

/-- The task text passed to a delegated agent (lines 243 to 250 of the
source): the subtask task alone for the first subtask, otherwise the
task followed by the context block built from all prior results. -/
def taskWithContext (taskText : PyStr) (results : List SubtaskResult) : PyStr :=
  match results with
  | [] => taskText
  | _ :: _ =>
    taskText ++ lit "\n\nContext from previous subtasks:\n" ++ build_context results

/-- Reviewer input of one review cycle. -/
def reviewInput (taskText agentType result : PyStr) : PyStr :=
  lit "ORIGINAL TASK:\n" ++ taskText ++ lit "\n\nAGENT TYPE: " ++ agentType ++
  lit "\n\nRESULT TO REVIEW:\n" ++ result

/-- Retry input of one review cycle. -/
def retryInput (taskText result feedback : PyStr) : PyStr :=
  lit "ORIGINAL TASK:\n" ++ taskText ++ lit "\n\nYOUR PREVIOUS RESULT:\n" ++ result ++
  lit "\n\nREVIEWER FEEDBACK — please fix these issues:\n" ++ feedback ++
  lit "\n\nPlease produce an improved result that addresses the feedback."

/-- Name of the reviewer agent of one cycle. -/
def reviewerName (sid : PyStr) (cycle : Nat) : PyStr :=
  lit "Reviewer_" ++ sid ++ lit "_c" ++ natToStr cycle

/-- Name `_create_agent` gives the retry agent of one cycle. -/
def retryAgentName (agentType sid : PyStr) (cycle : Nat) : PyStr :=
  pyCapitalize agentType ++ lit "_" ++ (sid ++ lit "_retry" ++ natToStr cycle)

/-- Record of one review cycle: its number, the parsed verdict, and the
candidate result in force after the cycle (unchanged on PASS, the retry
output on FEEDBACK). -/
structure ReviewEvent where
  cycle : Nat
  verdict : Verdict
  resultAfter : PyStr

/-- The cycle loop of `Orchestrator._review_loop`: review the candidate,
stop and keep it on PASS, else re-run a fresh same-role agent on the
feedback and continue with its output; after the last cycle the current
candidate is returned unconditionally. -/
def reviewLoopGo (o : Orchestrator) (sid agentType taskText : PyStr) :
    PyStr → Nat → Nat → PyStr × List ReviewEvent
  | result, _, 0 => (result, [])
  | result, cycle, rem + 1 =>
    let reviewOut := o.agentRun AgentKind.reviewer (reviewerName sid cycle)
      (reviewInput taskText agentType result)
    match parse_verdict reviewOut with
    | Verdict.pass => (result, [⟨cycle, Verdict.pass, result⟩])
    | Verdict.feedback fb =>
      let retried := o.agentRun (createAgentKind agentType)
        (retryAgentName agentType sid cycle) (retryInput taskText result fb)
      let p := reviewLoopGo o sid agentType taskText retried (cycle + 1) rem
      (p.1, ⟨cycle, Verdict.feedback fb, retried⟩ :: p.2)

/-- The method `Orchestrator._review_loop` on a candidate result,
running at most `maxReviewCycles` cycles. -/
def review_loop (o : Orchestrator) (sid agentType taskText result : PyStr) :
    PyStr × List ReviewEvent :=
  reviewLoopGo o sid agentType taskText result 1 o.maxReviewCycles

/-- One review-and-retry step at a given cycle number, as the loop body
performs it when the verdict is FEEDBACK (on PASS the candidate is kept). -/
def retryStep (o : Orchestrator) (sid agentType taskText : PyStr) (cycle : Nat)
    (result : PyStr) : PyStr :=
  let reviewOut := o.agentRun AgentKind.reviewer (reviewerName sid cycle)
    (reviewInput taskText agentType result)
  match parse_verdict reviewOut with
  | Verdict.pass => result
  | Verdict.feedback fb =>
    o.agentRun (createAgentKind agentType) (retryAgentName agentType sid cycle)
      (retryInput taskText result fb)

/-- The chain of review-and-retry steps beginning at a given cycle
number: the candidate after running `rem` consecutive cycles. -/
def retryChain (o : Orchestrator) (sid agentType taskText : PyStr) :
    Nat → Nat → PyStr → PyStr
  | _, 0, result => result
  | cycle, rem + 1, result =>
    retryChain o sid agentType taskText (cycle + 1) rem
      (retryStep o sid agentType taskText cycle result)

/-- The fallback subtask substituted when plan parsing fails:
id `1`, role `general`, task equal to the entire original input. -/
def fallbackSubtask (userTask : PyStr) : Json :=
  Json.obj [(lit "id", Json.num (lit "1")),
    (lit "agent", Json.str (lit "general")),
    (lit "task", Json.str userTask)]

/-- Python slicing `x[:80]` is defined for strings and lists; on other
decoded values the plan-summary log line raises. -/
def sliceable : Json → Bool
  | Json.str _ => true
  | Json.arr _ => true
  | _ => false

/-- The plan-summary logging loop (lines 219 to 220 of the source):
for every subtask of the chosen plan the f-string argument of `_log`
evaluates `st` indexed by `id`, `agent` and `task` and slices the task,
raising `KeyError` or `TypeError` on a malformed entry. The f-string is
evaluated at the call site regardless of the verbosity toggle, so the
run aborts here before any delegation. -/
def planSummaryCheck : List Json → Except PyStr Unit
  | [] => Except.ok ()
  | st :: rest =>
    match st with
    | Json.obj _ =>
      match st.getKey (lit "id") with
      | none => Except.error (lit "KeyError: id")
      | some _ =>
        match st.getKey (lit "agent") with
        | none => Except.error (lit "KeyError: agent")
        | some _ =>
          match st.getKey (lit "task") with
          | none => Except.error (lit "KeyError: task")
          | some t =>
            if sliceable t then planSummaryCheck rest
            else Except.error (lit "TypeError: object is not sliceable")
    | _ => Except.error (lit "TypeError: subtask is not a mapping")

/-- A recorded primary delegation: the kind of agent constructed, its
name, and the task text passed to its run. -/
abbrev Delegation := AgentKind × PyStr × PyStr

/-- One iteration of the delegation loop of `Orchestrator.run` (lines
232 to 289): read the subtask fields with their `get` defaults, build
the task text with the context block, construct and run the specialist,
then run the review loop unless reviewing is disabled or the result is
error-tagged. Errors model the exceptions Python raises when the
`agent` value is not a string (`capitalize` on it) or the entry is not
a mapping (`get` on it). -/
def delegStep (o : Orchestrator) (userTask : PyStr) (acc : List SubtaskResult)
    (st : Json) : Except PyStr (SubtaskResult × Delegation) :=
  match st with
  | Json.obj _ =>
    let sid := st.getD (lit "id") (Json.str (lit "?"))
    let agentTypeJ := st.getD (lit "agent") (Json.str (lit "general"))
    let taskTextJ := st.getD (lit "task") (Json.str userTask)
    match agentTypeJ with
    | Json.str agentType =>
      let taskText := pyStrOfJson taskTextJ
      let input := taskWithContext taskText acc
      let kind := createAgentKind agentType
      let name := pyCapitalize agentType ++ lit "_" ++ pyStrOfJson sid
      let result := o.agentRun kind name input
      let isErr := pyStartsWith result (lit "Agent error:") || pyStartsWith result ERROR_TAG
      let result2 :=
        if o.reviewEnabled && !isErr then
          (review_loop o (pyStrOfJson sid) agentType taskText result).1
        else result
      let errored := pyStartsWith result2 (lit "Agent error:") || pyStartsWith result2 ERROR_TAG
      Except.ok (⟨pyStrOfJson sid, agentType, taskText, result2, errored⟩, (kind, name, input))
    | _ => Except.error (lit "AttributeError: capitalize")
  | _ => Except.error (lit "AttributeError: get")

/-- The delegation loop over all subtasks, accumulating results and the
record of primary delegations in order. -/
def delegLoop (o : Orchestrator) (userTask : PyStr) :
    List Json → List SubtaskResult → List Delegation →
    Except PyStr (List SubtaskResult × List Delegation)
  | [], acc, dacc => Except.ok (acc, dacc)
  | st :: rest, acc, dacc =>
    match delegStep o userTask acc st with
    | Except.error e => Except.error e
    | Except.ok (entry, d) => delegLoop o userTask rest (acc ++ [entry]) (dacc ++ [d])

/-- The `results_text` block `_merge_results` builds. -/
def mergeResultsText (results : List SubtaskResult) : PyStr :=
  results.foldl
    (fun s r =>
      s ++ lit "--- Subtask " ++ r.id ++ lit " (" ++ r.agent ++ lit ") ---\n" ++
      lit "Task: " ++ r.task ++ lit "\nResult:\n" ++ r.result ++ lit "\n\n")
    []

/-- The merge prompt, `MERGE_PROMPT_TEMPLATE` with its two holes
filled. -/
def mergePrompt (userTask : PyStr) (results : List SubtaskResult) : PyStr :=
  lit "You are an Orchestrator merging results from specialist agents.\n\nThe user\x27s original task was:\n" ++
  userTask ++
  lit "\n\nHere are the results from each subtask:\n\n" ++
  mergeResultsText results ++
  lit "\n\nYour job: Combine these results into one clear, complete final answer for the user.\n- Do NOT repeat the subtask structure, just give the final answer.\n- If a subtask failed or returned an error, mention it briefly.\n- Be direct and concise."

/-- The method `Orchestrator._merge_results`: one merge model call; on
a transport-error response fall back to joining all results with blank
lines, else return the response with reasoning blocks stripped. -/
def merge_results (o : Orchestrator) (userTask : PyStr)
    (results : List SubtaskResult) : PyStr :=
  let merged := o.chatMerge (mergePrompt userTask results)
  if pyStartsWith merged ERROR_TAG then joinBlank (results.map (fun r => r.result))
  else pyStrip (stripThinkAll merged)

/-- Outcome of one orchestrator run: the returned answer, the subtask
list delegation iterated over, the collected results, the primary
delegations issued, and whether the merge model call was issued
(`chatMerge` is consulted only on the branch that sets it). -/
structure RunOutcome where
  answer : PyStr
  plannedSubtasks : List Json
  results : List SubtaskResult
  delegations : List Delegation
  mergeCalled : Bool

/-- The method `Orchestrator.run`: a transport error during planning
returns a tagged error answer with nothing delegated; otherwise the
parsed plan (or the single fallback subtask) is logged — which can
raise on malformed entries — and delegated in order; a single result is
returned verbatim, several results are merged. -/
def Orchestrator.run (o : Orchestrator) (userTask : PyStr) :
    Except PyStr RunOutcome :=
  if pyStartsWith o.chatPlan ERROR_TAG then
    Except.ok ⟨lit "Orchestrator error during planning: " ++ o.chatPlan, [], [], [], false⟩
  else
    let subtasks := (parse_plan o.chatPlan).getD [fallbackSubtask userTask]
    match planSummaryCheck subtasks with
    | Except.error e => Except.error e
    | Except.ok _ =>
      match delegLoop o userTask subtasks [] [] with
      | Except.error e => Except.error e
      | Except.ok (results, delegs) =>
        match results with
        | [r] => Except.ok ⟨r.result, subtasks, results, delegs, false⟩
        | _ => Except.ok ⟨merge_results o userTask results, subtasks, results, delegs, true⟩

/-- Whether a run returned (rather than raised). -/
def runOk (o : Orchestrator) (userTask : PyStr) : Bool :=
  match Orchestrator.run o userTask with
  | Except.ok _ => true
  | Except.error _ => false

/-- The outcome of a run that returned (a dummy outcome carrying the
error text otherwise). -/
def runOutcomeD (o : Orchestrator) (userTask : PyStr) : RunOutcome :=
  match Orchestrator.run o userTask with
  | Except.ok out => out
  | Except.error e => ⟨e, [], [], [], false⟩

/-! ## Concrete instances used by the theorems and their witnesses -/

/-- The dual-call model output of the claim: two sequential call markers,
each followed by a complete call object. -/
def dualCallText : PyStr :=
  lit "Act: [TOOL_CALL] \x7b\"name\":\"write_file\",\"arguments\":\x7b\"file_path\":\"essay.txt\",\"content\":\"Cats are great.\"\x7d\x7d ... Act: [TOOL_CALL] \x7b\"name\":\"write_file\",\"arguments\":\x7b\"file_path\":\"cat.txt\",\"content\":\"meow\"\x7d\x7d"

/-- A response whose reasoning block is inert prose. -/
def thinkPlain : PyStr := lit "<think>a</think>ok"

/-- A response identical to `thinkPlain` outside the reasoning block,
whose block contains a call marker and a call object. -/
def thinkWithCall : PyStr :=
  lit "<think>[TOOL_CALL] \x7b\"name\": \"calculate\", \"arguments\": \x7b\x7d\x7d</think>ok"

/-- An orchestrator whose planning response contains a subtask entry
with no `id` key. -/
def orchMissingId : Orchestrator :=
  ⟨lit "\x7b\"subtasks\": [\x7b\"agent\": \"coder\", \"task\": \"x\"\x7d]\x7d",
   fun _ _ _ => lit "R", fun _ => lit "M", true, 2⟩

/-- A model boundary that always reports a transport error. -/
def envTransportErr : AgentEnv := ⟨fun _ => lit "[ERROR] boom", fun _ _ => []⟩

/-- A model boundary that issues one tool call and then answers. -/
def envToolThenAnswer : AgentEnv :=
  ⟨fun hist =>
    if hist.length ≤ 2 then
      lit "Thought: use tool\nAct: [TOOL_CALL] \x7b\"name\": \"calculate\", \"arguments\": \x7b\"expression\": \"1+1\"\x7d\x7d"
    else lit "Thought: done\nAnswer: ok",
   fun _ _ => lit "42"⟩

/-- An orchestrator whose reviewer always returns FEEDBACK. -/
def orchAlwaysFeedback : Orchestrator :=
  ⟨lit "\x7b\"subtasks\":[\x7b\"id\":1,\"agent\":\"general\",\"task\":\"hi\"\x7d]\x7d",
   fun k nm inp =>
     if k = AgentKind.reviewer then lit "VERDICT: FEEDBACK fix it"
     else lit "retry for " ++ nm ++ lit " after " ++ natToStr inp.length,
   fun _ => lit "M", true, 2⟩

/-- An orchestrator whose planning response has no structured content. -/
def orchNoPlan : Orchestrator :=
  ⟨lit "no structured content here", fun _ _ _ => lit "R", fun _ => lit "M", false, 2⟩

/-- An orchestrator that plans one subtask. -/
def orchOneSubtask : Orchestrator :=
  ⟨lit "\x7b\"subtasks\":[\x7b\"id\":1,\"agent\":\"general\",\"task\":\"hi\"\x7d]\x7d",
   fun _ _ _ => lit "RESULT", fun _ => lit "MERGED", false, 2⟩

/-- An orchestrator that plans two subtasks and whose merge call reports
a transport error. -/
def orchTwoSubtasksMergeErr : Orchestrator :=
  ⟨lit "\x7b\"subtasks\":[\x7b\"id\":1,\"agent\":\"researcher\",\"task\":\"find\"\x7d,\x7b\"id\":2,\"agent\":\"coder\",\"task\":\"code\"\x7d]\x7d",
   fun k _ _ => if k = AgentKind.researcher then lit "A" else lit "B",
   fun _ => lit "[ERROR] down", false, 2⟩

/-- A prior-results list for the context-block witness. -/
def priorResultsW : List SubtaskResult :=
  [⟨lit "1", lit "researcher", lit "t", lit "RES", false⟩]

/-- The ways plan parsing fails, as the claim enumerates them over the
embedded scanner and decoder: no structured object in the cleaned text,
a structurally malformed match, a missing or non-list `subtasks` key,
or an empty `subtasks` list. -/
def planParseFailure (rawText : PyStr) : Prop :=
  greedyBraceMatch (pyStrip (stripThinkAll rawText)) = none
  ∨ (∃ m, greedyBraceMatch (pyStrip (stripThinkAll rawText)) = some m ∧ jsonLoads m = none)
  ∨ (∃ m parsed, greedyBraceMatch (pyStrip (stripThinkAll rawText)) = some m ∧
      jsonLoads m = some parsed ∧
      (parsed.getKey (lit "subtasks") = none
       ∨ (∃ v, parsed.getKey (lit "subtasks") = some v ∧ ∀ l, v ≠ Json.arr l)
       ∨ parsed.getKey (lit "subtasks") = some (Json.arr [])))

/-! ## Theorems settling the claims -/

/-- C1: on model output containing two sequential call markers,
`parse_tool_call` as shipped returns no call at all — the greedy brace
regex spans both call objects and the decode of the span fails — while
the balanced-object extraction the spec (and the repository test
`test_parse_tool_call_multi_hallucination`) prescribe returns exactly
the first call, name `write_file` with the `essay.txt` arguments. The
shipped code therefore contradicts its own tests on this input: a code
bug, with this theorem evaluating both behaviours at the failing input. -/
theorem c1_parse_tool_call_dual_hallucination :
    parse_tool_call dualCallText = (none, none)
    ∧ parse_tool_call_fixed dualCallText =
        (some (Json.str (lit "write_file")),
         some (Json.obj [(lit "file_path", Json.str (lit "essay.txt")),
                         (lit "content", Json.str (lit "Cats are great."))])) :=
  ⟨rfl, rfl⟩

/-- C10: a parsed plan entry with no `id` key aborts the whole run with
a `KeyError` raised while the plan-summary log line indexes the entry,
before any delegation and before the `get` defaults of the delegation
loop can apply — even though those defaults (second conjunct) and the
fallback of unrecognised role strings to the general agent (third
conjunct) are implemented exactly as the claim states. The claim
describes the evident intent of lines 232 to 235; the eager f-string at
line 220 defeats it: a code bug. -/
theorem c10_missing_id_defaults :
    Orchestrator.run orchMissingId (lit "do it") = Except.error (lit "KeyError: id")
    ∧ (Json.obj [(lit "agent", Json.str (lit "coder")), (lit "task", Json.str (lit "x"))]).getD
        (lit "id") (Json.str (lit "?")) = Json.str (lit "?")
    ∧ (Json.obj [(lit "task", Json.str (lit "x"))]).getD (lit "agent")
        (Json.str (lit "general")) = Json.str (lit "general")
    ∧ (Json.obj [(lit "agent", Json.str (lit "coder"))]).getD (lit "task")
        (Json.str (lit "whole input")) = Json.str (lit "whole input")
    ∧ createAgentKind (lit "banana") = AgentKind.general :=
  ⟨rfl, rfl, rfl, rfl, rfl⟩

/-- C9, counterexample: two model responses with identical text outside
the reasoning block — so they differ only in the content of the stripped
think block — take different control branches: the inert block yields
the treat-whole-text-as-answer branch, while a call marker hidden in the
block yields a tool-call branch, because `Agent.run` applies
`parse_tool_call` to the raw response text rather than to the stripped
visible text. -/
theorem c9_counterexample :
    (extract_thinking thinkPlain).2 = (extract_thinking thinkWithCall).2
    ∧ roundControl thinkPlain = RoundControl.whole (lit "ok")
    ∧ roundControl thinkWithCall =
        RoundControl.tool (Json.str (lit "calculate")) (Json.obj [])
    ∧ roundControl thinkPlain ≠ roundControl thinkWithCall := by
  refine ⟨rfl, rfl, rfl, fun h => ?_⟩
  exact absurd (congrArg RoundControl.tag h) (by decide)

/-- C9 (amended): the reasoning preamble is not used by the answer
branch — which reads only the stripped visible text — but tool-call
detection scans the raw response text, so the preamble can influence
the branch. For every pair of responses with the same stripped
remainder whose raw texts also parse to the same tool call (in
particular whenever neither preamble contains a call marker), the round
takes the same control branch with the same payloads, and hence, under
any tool boundary, produces the same visible result. -/
theorem c9_think_only_logging_amended (r1 r2 : PyStr)
    (hv : (extract_thinking r1).2 = (extract_thinking r2).2)
    (hp : parse_tool_call r1 = parse_tool_call r2) :
    roundControl r1 = roundControl r2 := by
  unfold roundControl roundAction
  rw [hv, hp]

/-- Witness for the amended C9 theorem at concrete responses differing
only inside the reasoning block. -/
theorem c9_amended_witness :
    roundControl (lit "<think>x</think>Answer: hi") =
      roundControl (lit "<think>yz</think>Answer: hi") :=
  c9_think_only_logging_amended (lit "<think>x</think>Answer: hi")
    (lit "<think>yz</think>Answer: hi") rfl rfl

/-- C5, counterexample: a transport error on the very first round makes
`Agent.run` return a tagged error answer while appending no trace step,
so the run returns with an empty trace — refuting both the non-empty
trace and the `final_answer` terminal step of the claim. -/
theorem c5_counterexample :
    (Agent.run envTransportErr 10 (lit "sys") (lit "task")).1 =
      lit "Agent error: [ERROR] boom"
    ∧ (Agent.run envTransportErr 10 (lit "sys") (lit "task")).2 = [] :=
  ⟨rfl, rfl⟩

/-- C3: `parse_verdict` returns PASS whenever the case-insensitive PASS
marker occurs in the scanned text (the reviewer output with reasoning
blocks stripped), even if a FEEDBACK marker also occurs; otherwise a
FEEDBACK marker yields FEEDBACK whose feedback text is the trimmed text
after the marker, with the fixed placeholder substituted when that text
is empty; with neither marker it returns PASS; and the feedback text of
a FEEDBACK verdict is never empty. -/
theorem c3_parse_verdict_priority (text : PyStr) :
    (verdictPassFound (pyStrip (stripThinkAll text)) = true →
      parse_verdict text = Verdict.pass)
    ∧ (verdictPassFound (pyStrip (stripThinkAll text)) = false →
        ∀ r, verdictFeedbackFind (pyStrip (stripThinkAll text)) = some r →
          parse_verdict text =
            Verdict.feedback (if pyStrip r = [] then NO_DETAILS else pyStrip r))
    ∧ (verdictPassFound (pyStrip (stripThinkAll text)) = false →
        verdictFeedbackFind (pyStrip (stripThinkAll text)) = none →
          parse_verdict text = Verdict.pass)
    ∧ (∀ fb, parse_verdict text = Verdict.feedback fb → fb ≠ []) := by
  unfold parse_verdict
  refine ⟨?_, ?_, ?_, ?_⟩
  · intro h; simp [h]
  · intro h r hr; simp [h, hr]
  · intro h hr; simp [h, hr]
  · intro fb hfb
    rcases hp : verdictPassFound (pyStrip (stripThinkAll text)) with _ | _
    · rcases hf : verdictFeedbackFind (pyStrip (stripThinkAll text)) with _ | r
      · simp [hp, hf] at hfb
      · simp only [hp, hf, Bool.false_eq_true, if_false] at hfb
        rw [Verdict.feedback.injEq] at hfb
        by_cases he : pyStrip r = []
        · rw [if_pos he] at hfb; rw [← hfb]; decide
        · rw [if_neg he] at hfb; rw [← hfb]; exact he
    · simp [hp] at hfb

/-- Witness for the C3 theorem: the priority tie-break input returns
PASS, and a bare FEEDBACK marker returns the non-empty placeholder. -/
theorem c3_witness :
    parse_verdict (lit "VERDICT: PASS\nVERDICT: FEEDBACK\n- x") = Verdict.pass
    ∧ parse_verdict (lit "VERDICT: FEEDBACK") = Verdict.feedback NO_DETAILS := by
  constructor
  · exact (c3_parse_verdict_priority (lit "VERDICT: PASS\nVERDICT: FEEDBACK\n- x")).1 (by decide)
  · have h := (c3_parse_verdict_priority (lit "VERDICT: FEEDBACK")).2.1 (by decide) [] (by decide)
    simpa using h

/-- Bound on review cycles: the loop never records more cycles than the
remaining budget, whatever the reviewer returns. -/
theorem reviewLoopGo_length_le (o : Orchestrator) (sid agentType taskText : PyStr) :
    ∀ rem cycle res,
      (reviewLoopGo o sid agentType taskText res cycle rem).2.length ≤ rem := by
  intro rem
  induction rem with
  | zero => intro cycle res; simp [reviewLoopGo]
  | succ n ih =>
    intro cycle res
    rcases h : parse_verdict (o.agentRun AgentKind.reviewer (reviewerName sid cycle)
        (reviewInput taskText agentType res)) with _ | fb
    · simp [reviewLoopGo, h]
    · simpa [reviewLoopGo, h] using
        Nat.succ_le_succ (ih (cycle + 1)
          (o.agentRun (createAgentKind agentType) (retryAgentName agentType sid cycle)
            (retryInput taskText res fb)))

/-- Under an always-FEEDBACK reviewer the loop spends its whole budget:
the returned candidate is the chain of retries, one FEEDBACK event is
recorded per cycle. -/
theorem reviewLoopGo_always_feedback (o : Orchestrator) (sid agentType taskText : PyStr)
    (H : ∀ nm inp, (parse_verdict (o.agentRun AgentKind.reviewer nm inp)).isFeedback = true) :
    ∀ rem cycle res,
      (reviewLoopGo o sid agentType taskText res cycle rem).1 =
        retryChain o sid agentType taskText cycle rem res
      ∧ (reviewLoopGo o sid agentType taskText res cycle rem).2.length = rem
      ∧ (reviewLoopGo o sid agentType taskText res cycle rem).2.all
          (fun e => e.verdict.isFeedback) = true := by
  intro rem
  induction rem with
  | zero => intro cycle res; simp [reviewLoopGo, retryChain]
  | succ n ih =>
    intro cycle res
    rcases h : parse_verdict (o.agentRun AgentKind.reviewer (reviewerName sid cycle)
        (reviewInput taskText agentType res)) with _ | fb
    · exact absurd (H (reviewerName sid cycle) (reviewInput taskText agentType res))
        (by simp [h, Verdict.isFeedback])
    · have hstep : retryStep o sid agentType taskText cycle res =
          o.agentRun (createAgentKind agentType) (retryAgentName agentType sid cycle)
            (retryInput taskText res fb) := by
        simp only [retryStep, h]
      obtain ⟨h1, h2, h3⟩ := ih (cycle + 1)
        (o.agentRun (createAgentKind agentType) (retryAgentName agentType sid cycle)
          (retryInput taskText res fb))
      refine ⟨?_, ?_, ?_⟩
      · simp only [reviewLoopGo, retryChain, h, hstep]
        exact h1
      · simp only [reviewLoopGo, h, List.length_cons]
        simp [h2]
      · simp only [reviewLoopGo, h, List.all_cons, Bool.and_eq_true]
        exact ⟨rfl, by simpa [Verdict.isFeedback] using h3⟩

/-- C2: the review loop never executes more than `maxReviewCycles`
cycles (first conjunct), and with a reviewer returning FEEDBACK in
every cycle it performs exactly `maxReviewCycles` review-and-retry
cycles — every recorded verdict FEEDBACK — and returns the candidate
produced by the last retry, the end of the retry chain (second
conjunct). The loop is a total function, so it always terminates with
some result. -/
theorem c2_review_loop_exhausts_cycles :
    (∀ (o : Orchestrator) (sid agentType taskText res : PyStr),
      (review_loop o sid agentType taskText res).2.length ≤ o.maxReviewCycles)
    ∧ ∀ (o : Orchestrator) (sid agentType taskText res : PyStr),
        (∀ nm inp, (parse_verdict (o.agentRun AgentKind.reviewer nm inp)).isFeedback = true) →
        (review_loop o sid agentType taskText res).2.length = o.maxReviewCycles
        ∧ (review_loop o sid agentType taskText res).2.all
            (fun e => e.verdict.isFeedback) = true
        ∧ (review_loop o sid agentType taskText res).1 =
            retryChain o sid agentType taskText 1 o.maxReviewCycles res := by
  constructor
  · intro o sid a t res
    exact reviewLoopGo_length_le o sid a t o.maxReviewCycles 1 res
  · intro o sid a t res H
    obtain ⟨h1, h2, h3⟩ := reviewLoopGo_always_feedback o sid a t H o.maxReviewCycles 1 res
    exact ⟨h2, h3, h1⟩

/-- Witness for the C2 theorem at a concrete always-FEEDBACK reviewer
with a budget of two cycles. -/
theorem c2_witness :
    (review_loop orchAlwaysFeedback (lit "1") (lit "general") (lit "task") (lit "first")).2.length = 2
    ∧ (review_loop orchAlwaysFeedback (lit "1") (lit "general") (lit "task") (lit "first")).2.all
        (fun e => e.verdict.isFeedback) = true
    ∧ (review_loop orchAlwaysFeedback (lit "1") (lit "general") (lit "task") (lit "first")).1 =
        retryChain orchAlwaysFeedback (lit "1") (lit "general") (lit "task") 1 2 (lit "first") :=
  c2_review_loop_exhausts_cycles.2 orchAlwaysFeedback (lit "1") (lit "general") (lit "task")
    (lit "first") (fun _ _ => rfl)

/-- The newline pair inside the blank-line separator, split for
reassociation in the context-block proof. -/
theorem blankPairSplit : (lit "\n\n" : PyStr) = lit "\n" ++ lit "\n" := rfl

/-- Closed form of the joined context lines: one blank-line separated
block per prior result, a trailing newline at the end. -/
theorem joinNl_contextLines :
    ∀ (rs : List SubtaskResult) (r : SubtaskResult),
      joinNl (contextLines (r :: rs)) =
        joinBlank ((r :: rs).map (fun q =>
          lit "[Subtask " ++ q.id ++ lit " — " ++ q.agent ++ lit "]" ++ lit "\n" ++
          q.result.take 500)) ++ lit "\n"
  | [], r => by
    simp [contextLines, joinNl, joinBlank, List.append_assoc]
  | r2 :: rest, r => by
    have ih := joinNl_contextLines rest r2
    simp only [contextLines] at ih ⊢
    simp only [joinNl, List.map_cons, joinBlank] at ih ⊢
    rw [ih]
    simp [blankPairSplit, List.append_assoc]

/-- C8, counterexample: at a concrete subtask after the first, the text
passed to the delegated agent consists of the subtask task with the
context block appended after it — the text begins with the task and the
context block follows — so the context block is not prepended to the
task text as the claim states. -/
theorem c8_counterexample :
    taskWithContext (lit "x") priorResultsW =
      lit "x\n\nContext from previous subtasks:\n[Subtask 1 — researcher]\nRES\n"
    ∧ pyStartsWith (taskWithContext (lit "x") priorResultsW) (lit "x\n\n") = true
    ∧ pyStartsWith (taskWithContext (lit "x") priorResultsW)
        (lit "Context from previous subtasks:") = false
    ∧ pyStartsWith (taskWithContext (lit "x") priorResultsW) (lit "[Subtask") = false :=
  ⟨rfl, rfl, rfl, rfl⟩

/-- C8 (amended): for every subtask after the first (some prior result
exists), the task text passed to the delegated agent is the subtask
task with the context block appended after it (not prepended): the
task, a blank line, the context header, then the block, which contains,
for each prior result in order, a labeled header carrying its id and
role and then the first 500 characters of its result; results of 500
characters or fewer appear in full (second conjunct). -/
theorem c8_context_block_structure (taskText : PyStr) (r : SubtaskResult)
    (rs : List SubtaskResult) :
    taskWithContext taskText (r :: rs) =
      taskText ++ lit "\n\nContext from previous subtasks:\n" ++
        joinBlank ((r :: rs).map (fun q =>
          lit "[Subtask " ++ q.id ++ lit " — " ++ q.agent ++ lit "]" ++ lit "\n" ++
          q.result.take 500)) ++ lit "\n"
    ∧ ∀ q ∈ r :: rs, q.result.length ≤ 500 → q.result.take 500 = q.result := by
  constructor
  · simp only [taskWithContext, build_context]
    rw [joinNl_contextLines rs r]
    simp [List.append_assoc]
  · intro q _ hlen
    exact List.take_of_length_le hlen

/-- Witness for the C8 theorem at one concrete prior result, computing
the context block the delegated agent receives. -/
theorem c8_witness :
    taskWithContext (lit "x") priorResultsW =
      lit "x\n\nContext from previous subtasks:\n[Subtask 1 — researcher]\nRES\n" := by
  have h := (c8_context_block_structure (lit "x")
    ⟨lit "1", lit "researcher", lit "t", lit "RES", false⟩ []).1
  exact h.trans (by decide)

/-- C6: every orchestrator run that returns with exactly one subtask
result issues no merge model call, and its final answer is that
(possibly reviewed) result, character for character. -/
theorem c6_single_subtask_no_merge (o : Orchestrator) (userTask : PyStr) (out : RunOutcome)
    (hrun : Orchestrator.run o userTask = Except.ok out)
    (hone : out.results.length = 1) :
    out.mergeCalled = false ∧ out.answer = (out.results.getD 0 default).result := by
  unfold Orchestrator.run at hrun
  split at hrun
  · rw [Except.ok.injEq] at hrun
    subst hrun
    simp at hone
  · simp only [] at hrun
    split at hrun
    · exact absurd hrun (by simp)
    · split at hrun
      · exact absurd hrun (by simp)
      · split at hrun
        · rw [Except.ok.injEq] at hrun
          subst hrun
          exact ⟨rfl, by simp⟩
        · rw [Except.ok.injEq] at hrun
          subst hrun
          simp only [] at hone
          rename_i results2 hne
          obtain ⟨a, ha⟩ := List.length_eq_one.mp hone
          exact absurd ha (fun hh => hne a hh)

/-- Witness for the C6 theorem at a concrete one-subtask plan. -/
theorem c6_witness :
    (runOutcomeD orchOneSubtask (lit "hi")).mergeCalled = false
    ∧ (runOutcomeD orchOneSubtask (lit "hi")).answer =
        ((runOutcomeD orchOneSubtask (lit "hi")).results.getD 0 default).result :=
  c6_single_subtask_no_merge orchOneSubtask (lit "hi")
    (runOutcomeD orchOneSubtask (lit "hi")) rfl rfl

/-- A merge boundary that always reports a transport error makes
`_merge_results` fall back to the blank-line join of all results. -/
theorem merge_results_transport_err (o : Orchestrator) (userTask : PyStr)
    (results : List SubtaskResult)
    (hmerge : ∀ p, pyStartsWith (o.chatMerge p) ERROR_TAG = true) :
    merge_results o userTask results = joinBlank (results.map (fun r => r.result)) := by
  unfold merge_results
  simp only []
  rw [hmerge]
  simp

/-- The blank-line join of a list with a non-empty member is non-empty. -/
theorem joinBlank_ne_nil : ∀ (l : List PyStr), (∃ x ∈ l, x ≠ []) → joinBlank l ≠ []
  | [], h => by rcases h with ⟨x, hx, _⟩; cases hx
  | [x], h => by
    rcases h with ⟨y, hy, hne⟩
    simp at hy
    subst hy
    simpa [joinBlank] using hne
  | x :: y :: rest, _ => by
    intro h
    have hlen := congrArg List.length h
    have h2 : (lit "\n\n" : PyStr).length = 2 := rfl
    simp [joinBlank, List.length_append, h2] at hlen

/-- C7: every orchestrator run that returns with two or more subtask
results, under a merge boundary that reports a transport error, has as
final answer all subtask result strings joined by a blank-line
separator in subtask order; the answer is non-empty whenever some
subtask result is non-empty. -/
theorem c7_merge_transport_error_join (o : Orchestrator) (userTask : PyStr) (out : RunOutcome)
    (hmerge : ∀ p, pyStartsWith (o.chatMerge p) ERROR_TAG = true)
    (hrun : Orchestrator.run o userTask = Except.ok out)
    (htwo : 2 ≤ out.results.length) :
    out.answer = joinBlank (out.results.map (fun r => r.result))
    ∧ ((∃ r ∈ out.results, r.result ≠ []) → out.answer ≠ []) := by
  unfold Orchestrator.run at hrun
  split at hrun
  · rw [Except.ok.injEq] at hrun
    subst hrun
    simp at htwo
  · simp only [] at hrun
    split at hrun
    · exact absurd hrun (by simp)
    · split at hrun
      · exact absurd hrun (by simp)
      · split at hrun
        · rw [Except.ok.injEq] at hrun
          subst hrun
          simp at htwo
        · rw [Except.ok.injEq] at hrun
          subst hrun
          simp only [] at htwo ⊢
          refine ⟨merge_results_transport_err o userTask _ hmerge, fun hex => ?_⟩
          rw [merge_results_transport_err o userTask _ hmerge]
          apply joinBlank_ne_nil
          rcases hex with ⟨r, hr, hne⟩
          exact ⟨r.result, List.mem_map_of_mem _ hr, hne⟩

/-- Witness for the C7 theorem at a concrete two-subtask plan whose
merge call reports a transport error. -/
theorem c7_witness :
    (runOutcomeD orchTwoSubtasksMergeErr (lit "do both")).answer =
      joinBlank ((runOutcomeD orchTwoSubtasksMergeErr (lit "do both")).results.map
        (fun r => r.result))
    ∧ ((∃ r ∈ (runOutcomeD orchTwoSubtasksMergeErr (lit "do both")).results, r.result ≠ []) →
        (runOutcomeD orchTwoSubtasksMergeErr (lit "do both")).answer ≠ []) :=
  c7_merge_transport_error_join orchTwoSubtasksMergeErr (lit "do both")
    (runOutcomeD orchTwoSubtasksMergeErr (lit "do both")) (fun _ => rfl) rfl (by decide)

/-- C4: whenever the planning response parses to no plan — no
structured object, a malformed structure, a missing or non-list
`subtasks` key, or an empty `subtasks` list — and the response is not a
transport error, `parse_plan` returns none and the run does not abort:
it substitutes exactly one fallback subtask with role `general` and
task equal to the entire original user input, and delegation proceeds
with that single subtask (one delegation, to the general agent, whose
input is the whole user task; one result). -/
theorem c4_plan_failure_fallback (o : Orchestrator) (userTask : PyStr)
    (hfail : planParseFailure o.chatPlan)
    (herr : pyStartsWith o.chatPlan ERROR_TAG = false) :
    parse_plan o.chatPlan = none
    ∧ runOk o userTask = true
    ∧ (runOutcomeD o userTask).plannedSubtasks = [fallbackSubtask userTask]
    ∧ (runOutcomeD o userTask).delegations = [(AgentKind.general, lit "General_1", userTask)]
    ∧ (runOutcomeD o userTask).results.length = 1 := by
  have hnone : parse_plan o.chatPlan = none := by
    unfold parse_plan
    rcases hfail with h | ⟨m, hm, hj⟩ | ⟨m, parsed, hm, hj, hsub⟩
    · simp [h]
    · simp [hm, hj]
    · simp only [hm, hj]
      rcases hsub with h1 | ⟨v, hv, hvne⟩ | h2
      · simp [h1]
      · rw [hv]
        cases v with
        | arr l => exact absurd rfl (hvne l)
        | null => rfl
        | bool b => rfl
        | num l => rfl
        | str s => rfl
        | obj m => rfl
      · simp [h2]
  refine ⟨hnone, ?_, ?_, ?_, ?_⟩
  · unfold runOk Orchestrator.run
    rw [if_neg (by simp [herr])]
    simp only [hnone]
    rfl
  · unfold runOutcomeD Orchestrator.run
    rw [if_neg (by simp [herr])]
    simp only [hnone]
    rfl
  · unfold runOutcomeD Orchestrator.run
    rw [if_neg (by simp [herr])]
    simp only [hnone]
    rfl
  · unfold runOutcomeD Orchestrator.run
    rw [if_neg (by simp [herr])]
    simp only [hnone]
    rfl

/-- Witness for the C4 theorem at a planning response with no
structured content. -/
theorem c4_witness :
    parse_plan orchNoPlan.chatPlan = none
    ∧ runOk orchNoPlan (lit "the whole original input") = true
    ∧ (runOutcomeD orchNoPlan (lit "the whole original input")).plannedSubtasks =
        [fallbackSubtask (lit "the whole original input")]
    ∧ (runOutcomeD orchNoPlan (lit "the whole original input")).delegations =
        [(AgentKind.general, lit "General_1", lit "the whole original input")]
    ∧ (runOutcomeD orchNoPlan (lit "the whole original input")).results.length = 1 :=
  c4_plan_failure_fallback orchNoPlan (lit "the whole original input")
    (Or.inl (by decide)) (by decide)

/-- A trace list ending in a step appended by a completed round places
that step at the index equal to the length of the earlier trace. -/
theorem getD_concat_self (l : List TraceStep) (a d : TraceStep) :
    (l ++ [a]).getD l.length d = a := by
  rw [List.getD_append_right l [a] d l.length (Nat.le_refl _)]
  simp

/-- An in-range default read of a trace list yields a member. -/
theorem getD_mem_of_lt (l : List TraceStep) (i : Nat) (hi : i < l.length) :
    l.getD i default ∈ l := by
  rw [List.getD_eq_getElem l default hi]
  exact List.getElem_mem hi

/-- The last entry of a trace list is a member. -/
theorem mem_of_getLast?_eq (l : List TraceStep) (s : TraceStep)
    (h : l.getLast? = some s) : s ∈ l := by
  have hmem : s ∈ l.getLast? := by rw [h]; rfl
  obtain ⟨hne, heq⟩ := List.mem_getLast?_eq_getLast hmem
  rw [heq]
  exact List.getLast_mem hne

/-- Invariant of the agent round loop: starting from a trace of
tool-call steps with consecutive rounds, the final trace stays within
the fuel budget, numbers its steps consecutively from one, keeps every
step but possibly the last a tool-call step, and, when its last entry
is a final-answer step, records there exactly the returned answer.
Transport-error aborts and the forced answer append nothing. -/
theorem agentRunGo_spec (env : AgentEnv) :
    ∀ (fuel : Nat) (tr : List TraceStep) (round : Nat) (hist : List Message),
      round = tr.length + 1 →
      (∀ i, i < tr.length → ((tr.getD i default).round = i + 1)) →
      (∀ s, s ∈ tr → s.isToolCall = true) →
      (agentRunGo env fuel round hist tr).2.length ≤ tr.length + fuel
      ∧ (∀ i, i < (agentRunGo env fuel round hist tr).2.length →
          (((agentRunGo env fuel round hist tr).2.getD i default).round = i + 1))
      ∧ (∀ i, i + 1 < (agentRunGo env fuel round hist tr).2.length →
          (((agentRunGo env fuel round hist tr).2.getD i default).isToolCall = true))
      ∧ (∀ s, (agentRunGo env fuel round hist tr).2.getLast? = some s →
          s.isToolCall = false → s.answerOf = some (agentRunGo env fuel round hist tr).1) := by
  intro fuel
  induction fuel with
  | zero =>
    intro tr round hist hround hrounds hmem
    simp only [agentRunGo]
    refine ⟨Nat.le_refl _, hrounds, fun i hi => ?_, fun s hs hsf => ?_⟩
    · exact hmem _ (getD_mem_of_lt tr i (by omega))
    · exact absurd (hmem s (mem_of_getLast?_eq tr s hs)) (by simp [hsf])
  | succ n ih =>
    intro tr round hist hround hrounds hmem
    simp only [agentRunGo]
    split
    · try simp only []
      refine ⟨by omega, hrounds, fun i hi => ?_, fun s hs hsf => ?_⟩
      · exact hmem _ (getD_mem_of_lt tr i (by omega))
      · exact absurd (hmem s (mem_of_getLast?_eq tr s hs)) (by simp [hsf])
    · split
      · rename_i th a hra
        try simp only []
        refine ⟨?_, fun i hi => ?_, fun i hi => ?_, fun s hs hsf => ?_⟩
        · simp only [List.length_append, List.length_cons, List.length_nil]
          omega
        · simp only [List.length_append, List.length_cons, List.length_nil] at hi
          rcases Nat.lt_or_ge i tr.length with hlt | hge
          · rw [List.getD_append _ _ _ _ hlt]
            exact hrounds i hlt
          · have hieq : i = tr.length := by omega
            subst hieq
            rw [getD_concat_self]
            simp only [TraceStep.round]
            omega
        · simp only [List.length_append, List.length_cons, List.length_nil] at hi
          have hlt : i < tr.length := by omega
          rw [List.getD_append _ _ _ _ hlt]
          exact hmem _ (getD_mem_of_lt tr i hlt)
        · rw [List.getLast?_concat] at hs
          have hseq : s = TraceStep.finalAnswer round th a (env.chat hist) := by
            injection hs with h2
            exact h2.symm
          subst hseq
          simp [TraceStep.answerOf]
      · rename_i th v hra
        try simp only []
        refine ⟨?_, fun i hi => ?_, fun i hi => ?_, fun s hs hsf => ?_⟩
        · simp only [List.length_append, List.length_cons, List.length_nil]
          omega
        · simp only [List.length_append, List.length_cons, List.length_nil] at hi
          rcases Nat.lt_or_ge i tr.length with hlt | hge
          · rw [List.getD_append _ _ _ _ hlt]
            exact hrounds i hlt
          · have hieq : i = tr.length := by omega
            subst hieq
            rw [getD_concat_self]
            simp only [TraceStep.round]
            omega
        · simp only [List.length_append, List.length_cons, List.length_nil] at hi
          have hlt : i < tr.length := by omega
          rw [List.getD_append _ _ _ _ hlt]
          exact hmem _ (getD_mem_of_lt tr i hlt)
        · rw [List.getLast?_concat] at hs
          have hseq : s = TraceStep.finalAnswer round th v (env.chat hist) := by
            injection hs with h2
            exact h2.symm
          subst hseq
          simp [TraceStep.answerOf]
      · rename_i th nm args hra
        try simp only []
        have hround2 : round + 1 =
            (tr ++ [TraceStep.toolCall round th nm args (env.execTool nm args)
              (env.chat hist)]).length + 1 := by
          simp only [List.length_append, List.length_cons, List.length_nil]
          omega
        have hrounds2 : ∀ i,
            i < (tr ++ [TraceStep.toolCall round th nm args (env.execTool nm args)
              (env.chat hist)]).length →
            (((tr ++ [TraceStep.toolCall round th nm args (env.execTool nm args)
              (env.chat hist)]).getD i default).round = i + 1) := by
          intro i hi
          simp only [List.length_append, List.length_cons, List.length_nil] at hi
          rcases Nat.lt_or_ge i tr.length with hlt | hge
          · rw [List.getD_append _ _ _ _ hlt]
            exact hrounds i hlt
          · have hieq : i = tr.length := by omega
            subst hieq
            rw [getD_concat_self]
            simp only [TraceStep.round]
            omega
        have hmem2 : ∀ s,
            s ∈ tr ++ [TraceStep.toolCall round th nm args (env.execTool nm args)
              (env.chat hist)] →
            s.isToolCall = true := by
          intro s hsmem
          rcases List.mem_append.mp hsmem with hin | hin
          · exact hmem s hin
          · rcases List.mem_singleton.mp hin with rfl
            rfl
        obtain ⟨ih1, ih2, ih3, ih4⟩ := ih
          (tr ++ [TraceStep.toolCall round th nm args (env.execTool nm args) (env.chat hist)])
          (round + 1)
          (hist ++ [⟨Role.assistant, env.chat hist⟩,
            ⟨Role.user, lit "Observe: " ++ env.execTool nm args⟩])
          hround2 hrounds2 hmem2
        refine ⟨?_, ih2, ih3, ih4⟩
        calc _ ≤ _ := ih1
        _ ≤ tr.length + (n + 1) := by
          simp only [List.length_append, List.length_cons, List.length_nil]
          omega

/-- C5 (amended): `Agent.run` appends exactly one trace step per
completed round that ends in a tool call or in an answer; the steps
carry consecutive round numbers starting at one, there are at most
`maxRounds` of them, every step before the last is a tool-call step,
and when the trace ends in a final-answer step that step records the
returned answer. A transport-error abort and the forced answer after
the round limit append no step, so such runs return with an empty
trace or one ending in a tool-call step. -/
theorem c5_trace_per_round_amended (env : AgentEnv) (maxRounds : Nat)
    (systemPrompt userInput : PyStr) :
    (Agent.run env maxRounds systemPrompt userInput).2.length ≤ maxRounds
    ∧ (∀ i, i < (Agent.run env maxRounds systemPrompt userInput).2.length →
        ((Agent.run env maxRounds systemPrompt userInput).2.getD i default).round = i + 1)
    ∧ (∀ i, i + 1 < (Agent.run env maxRounds systemPrompt userInput).2.length →
        ((Agent.run env maxRounds systemPrompt userInput).2.getD i default).isToolCall = true)
    ∧ (∀ s, (Agent.run env maxRounds systemPrompt userInput).2.getLast? = some s →
        s.isToolCall = false →
        s.answerOf = some (Agent.run env maxRounds systemPrompt userInput).1) := by
  have h := agentRunGo_spec env maxRounds [] 1
    [⟨Role.system, systemPrompt⟩, ⟨Role.user, userInput⟩] rfl
    (by intro i hi; simp at hi)
    (by intro s hs; simp at hs)
  simpa [Agent.run] using h

/-- Witness for the amended C5 theorem at a run that calls one tool and
then answers: its first trace step is a round-one tool-call step. -/
theorem c5_witness :
    ((Agent.run envToolThenAnswer 3 (lit "sys") (lit "usr")).2.getD 0 default).round = 0 + 1
    ∧ ((Agent.run envToolThenAnswer 3 (lit "sys") (lit "usr")).2.getD 0 default).isToolCall = true :=
  ⟨(c5_trace_per_round_amended envToolThenAnswer 3 (lit "sys") (lit "usr")).2.1 0 (by decide),
   (c5_trace_per_round_amended envToolThenAnswer 3 (lit "sys") (lit "usr")).2.2.1 0 (by decide)⟩
